import Mathlib

/-!
Verification of the DotBot asset-transfer agent
(`src/agents/asset-transfer-agent/agent.py`).

The agent is embedded shallowly:

* CPython `float` values are modelled exactly as rationals together with the
  IEEE-754 binary64 rounding function `flq` (round to nearest, ties to even,
  with gradual underflow; overflow is reported as `none` and surfaces as the
  `OverflowError` that `int()` raises on an infinite float).
* Python exceptions are modelled by the `PyResult` sum; a function that can
  raise returns `PyResult α`.
* Python dicts used as response envelopes are modelled as ordered association
  lists (`Envelope`), so that presence and absence of a key is observable.
* The external `substrateinterface` dependency (RPC queries and `ss58_decode`)
  is opaque in the source and is modelled as an explicit `ChainEnv` parameter;
  `envStandalone` is the configuration with `SUBSTRATE_AVAILABLE = False`.
-/

-- The Batteries rational-number operations are `@[irreducible]`, which blocks
-- `decide` from evaluating the concrete test vectors below; restore their
-- definitional transparency for this development.
unseal Rat.add Rat.sub Rat.mul Rat.inv

set_option maxRecDepth 100000
set_option exponentiation.threshold 3000

namespace DotBot

/-! ### Exact model of IEEE-754 binary64 arithmetic over ℚ -/

/-- Fuel-driven base-2 logarithm on ℕ (kernel-reducible, unlike `Nat.log2`
which is defined by well-founded recursion). -/
def log2fuel : ℕ → ℕ → ℕ
  | 0, _ => 0
  | fuel + 1, n => if n ≥ 2 then log2fuel fuel (n / 2) + 1 else 0

/-- Base-2 logarithm of a natural number, `0` for `0`. -/
def natLog2 (n : ℕ) : ℕ := log2fuel n n

/-- The rational `2 ^ z`, computed through kernel-friendly `Nat.pow`. -/
def pow2z : ℤ → ℚ
  | .ofNat n => ((2 ^ n : ℕ) : ℚ)
  | .negSucc n => 1 / ((2 ^ (n + 1) : ℕ) : ℚ)

/-- The rational `10 ^ d`, computed through kernel-friendly `Nat.pow`. -/
def pow10 (d : ℕ) : ℚ := ((10 ^ d : ℕ) : ℚ)

/-- Greatest `z : ℤ` with `2 ^ z ≤ q`, for positive `q`. -/
def rexp (q : ℚ) : ℤ :=
  let z0 : ℤ := (natLog2 q.num.natAbs : ℤ) - (natLog2 q.den : ℤ)
  if pow2z z0 ≤ q then z0 else z0 - 1

/-- Round a rational to the nearest integer, ties to even. -/
def roundHalfEven (q : ℚ) : ℤ :=
  let f : ℤ := ⌊q⌋
  let r : ℚ := q - (f : ℚ)
  if r < 1 / 2 then f
  else if 1 / 2 < r then f + 1
  else if f % 2 = 0 then f else f + 1

/-- Round a positive rational to binary64 (round to nearest, ties to even).
`none` is overflow (the value would be `inf`).  Subnormal results use the
fixed granularity `2 ^ (-1074)`. -/
def flPos (q : ℚ) : Option ℚ :=
  let z := rexp q
  if z < -1022 then
    some ((roundHalfEven (q * pow2z 1074) : ℚ) * pow2z (-1074))
  else
    let m := roundHalfEven (q * pow2z (52 - z))
    let r := (m : ℚ) * pow2z (z - 52)
    if r < pow2z 1024 then some r else none

/-- Round any rational to binary64; `none` is overflow to an infinity. -/
def flq (q : ℚ) : Option ℚ :=
  if q = 0 then some 0
  else if 0 < q then flPos q
  else (flPos (-q)).map (fun x => -x)

/-- IEEE-754 binary64 multiplication: exact product, then one rounding. -/
def pyMul (x y : ℚ) : Option ℚ := flq (x * y)

/-- CPython `int(x)` on a finite float: truncation toward zero. -/
def pyInt (q : ℚ) : ℤ := if 0 ≤ q then ⌊q⌋ else -⌊-q⌋

/-! ### Kernel-friendly string helpers (Python `str` operations) -/

/-- Split a character list at whitespace, like Python `str.split` before
discarding empties; `acc` is the current word, reversed. -/
def wordsAux : List Char → List Char → List (List Char)
  | [], acc => [acc.reverse]
  | c :: cs, acc =>
    if c.isWhitespace then acc.reverse :: wordsAux cs [] else wordsAux cs (c :: acc)

/-- Python `message.split()`: whitespace-delimited tokens, empties dropped. -/
def pyWords (s : String) : List String :=
  ((wordsAux s.data []).filter (fun w => w ≠ [])).map (fun w => ⟨w⟩)

/-- Python `str.lower()` (ASCII case folding suffices for this agent). -/
def lowerStr (s : String) : String := ⟨s.data.map Char.toLower⟩

/-- Is `pre` a prefix of `l`? -/
def listPref : List Char → List Char → Bool
  | [], _ => true
  | _ :: _, [] => false
  | a :: as, b :: bs => a = b && listPref as bs

/-- Is `n` a contiguous sublist of the second argument? -/
def listSub (n : List Char) : List Char → Bool
  | [] => n.isEmpty
  | c :: rest => listPref n (c :: rest) || listSub n rest

/-- Python `needle in hay` on strings: substring containment. -/
def substrContains (needle hay : String) : Bool := listSub needle.data hay.data

/-- Python truthiness of a string: non-empty. -/
def pyTruthy (s : String) : Bool := s != ""

/-- `word.replace(".", "").replace(",", "")` from the amount scan. -/
def stripSeps (w : String) : String :=
  ⟨w.data.filter (fun c => c ≠ '.' && c ≠ ',')⟩

/-- `word.replace(",", "")`: the token kept as the amount. -/
def removeCommas (w : String) : String := ⟨w.data.filter (fun c => c ≠ ',')⟩

/-- Python `str.isdigit` on the separator-stripped token (ASCII digits). -/
def isNumericTok (w : String) : Bool :=
  !(stripSeps w).isEmpty && (stripSeps w).data.all Char.isDigit

/-- Decimal value of an ASCII digit list. -/
def digitsToNat (l : List Char) : ℕ := l.foldl (fun acc c => 10 * acc + (c.toNat - 48)) 0

/-- Split a character list at the character `'.'`. -/
def splitDotAux : List Char → List Char → List (List Char)
  | [], acc => [acc.reverse]
  | c :: cs, acc =>
    if c = '.' then acc.reverse :: splitDotAux cs [] else splitDotAux cs (c :: acc)

/-- Exact rational value of a decimal numeral string, in the forms CPython
`float()` accepts among the agent amount strings: `digits`, `digits.digits`,
`digits.`, `.digits`.  Signs, exponents, underscores, `inf` and `nan` do not
occur in the claims and are mapped to `none` (a `ValueError`). -/
def parseDecimal (s : String) : Option ℚ :=
  match splitDotAux s.data [] with
  | [a] =>
    if a ≠ [] && a.all Char.isDigit then some (digitsToNat a : ℚ) else none
  | [a, b] =>
    if (a ≠ [] || b ≠ []) && a.all Char.isDigit && b.all Char.isDigit then
      some ((digitsToNat a : ℚ) + (digitsToNat b : ℚ) / pow10 b.length)
    else none
  | _ => none

/-! ### Data model (`agent.py`, lines 35-79)

The Python classes are `@dataclass`-decorated; their generated constructors
require every field without a default.  The failure branches of
`prepare_transfer` call `TransferResponse(success=False, error=...)` without
the required `message` field, which raises `TypeError` — this is modelled
where those calls occur. -/

/-- `TransferRequest` (`agent.py` line 35): all fields of the dataclass. -/
structure TransferRequest where
  amount : String
  recipient : String
  asset : String := "DOT"
  network : String := "polkadot"
  sender_address : Option String := none
  message_id : Option String := none
deriving DecidableEq, Repr

/-- The `{"Id": recipient}` destination object of the call descriptor. -/
structure DestId where
  Id : String
deriving DecidableEq, Repr

/-- The `args` object of the call descriptor: destination and base-unit value. -/
structure TxArgs where
  dest : DestId
  value : ℤ
deriving DecidableEq, Repr

/-- The `transaction_data` dict built in `prepare_transfer` (lines 179-190). -/
structure TxData where
  pallet : String
  call : String
  args : TxArgs
  network : String
  amount_display : String
  recipient_display : String
  estimated_fee : String
deriving DecidableEq, Repr

/-- `TransferResponse` (`agent.py` line 45). -/
structure TransferResponse where
  success : Bool
  message : String
  transaction_data : Option TxData := none
  error : Option String := none
  requires_signature : Bool := false
deriving DecidableEq, Repr

/-- One entry of the `self.networks` registry (lines 60-79). -/
structure NetworkConfig where
  rpc_url : String
  ss58_format : ℕ
  decimals : ℕ
  symbol : String
deriving DecidableEq, Repr

/-- The static network registry `self.networks`. -/
def networks : List (String × NetworkConfig) :=
  [("polkadot", { rpc_url := "wss://rpc.polkadot.io", ss58_format := 0,
                  decimals := 10, symbol := "DOT" }),
   ("kusama", { rpc_url := "wss://kusama-rpc.polkadot.io", ss58_format := 2,
                decimals := 12, symbol := "KSM" }),
   ("westend", { rpc_url := "wss://westend-rpc.polkadot.io", ss58_format := 42,
                 decimals := 12, symbol := "WND" })]

/-- `self.networks.get(name)`. -/
def networksGet (n : String) : Option NetworkConfig := networks.lookup n

/-- A Python exception value (only the kinds this agent can raise). -/
inductive PyExc where
  | typeError (msg : String)
  | valueError (msg : String)
  | overflowError (msg : String)
deriving DecidableEq, Repr

/-- Outcome of a Python call: a value, or a raised exception. -/
inductive PyResult (α : Type) where
  | ok (val : α)
  | exc (e : PyExc)
deriving DecidableEq, Repr

/-- The raw `System.Account` chain-state record read by `_get_balance`. -/
structure AccountData where
  free : ℤ
  reserved : ℤ
  frozen : ℤ
deriving DecidableEq, Repr

/-- The normalized balance snapshot assembled by `_get_balance`. -/
structure BalanceInfo where
  free : ℚ
  reserved : ℚ
  frozen : ℚ
  total : ℚ
  symbol : String
deriving DecidableEq, Repr

/-- The opaque external world of the agent: whether `substrateinterface`
imported (`SUBSTRATE_AVAILABLE`), which networks obtained a live interface at
startup, the RPC account query, and the external `ss58_decode` validity check
(`true` iff the decode succeeds). -/
structure ChainEnv where
  substrate_available : Bool
  interfaces : List String
  query : String → String → PyResult (Option AccountData)
  ss58_valid : String → ℕ → Bool

/-- Standalone mode: `substrateinterface` is not installed, no interfaces. -/
def envStandalone : ChainEnv :=
  { substrate_available := false, interfaces := [],
    query := fun _ _ => .ok none, ss58_valid := fun _ _ => false }

/-- The caller-supplied `context` dict of `process_message`. -/
structure Context where
  sender_address : Option String := none
deriving DecidableEq, Repr

/-! ### `parse_transfer_request` (`agent.py`, lines 102-155) -/

/-- The amount scan (lines 107-115): first whitespace token whose
dot/comma-stripped form `isdigit()`; the token is kept with commas removed. -/
def findAmount (message : String) : Option String :=
  ((pyWords message).find? isNumericTok).map removeCommas

/-- The literal-address scan (lines 117-122): first token longer than 40
characters starting with the character `5`. -/
def findLiteral (message : String) : Option String :=
  (pyWords message).find? (fun w => w.data.length > 40 && listPref ['5'] w.data)

/-- The hardcoded alias table (lines 124-129), in dict insertion order. -/
def aliases : List (String × String) :=
  [("alice", "5GrwvaEF5zXb26Fz9rcQpDWS57CtERHpNehXCPcNoHGKutQY"),
   ("bob", "5FHneW46xGXgs5mUiveU4sbTyGBzmstUspZC92UhjJM694ty"),
   ("charlie", "5FLSigC9HGRKVhB9FiEo4Y3koPsNmBmLJbpXg2mp1hXcS59Y")]

/-- The alias scan (lines 131-134): first alias that is a substring of the
lowercased message, mapped to its address. -/
def findAlias (lower : String) : Option String :=
  ((aliases.find? (fun p => substrContains p.1 lower)).map (fun p => p.2))

/-- The recipient after both scans: the literal-address scan runs first and
the alias scan then overwrites its result, so the alias wins when both hit. -/
def findRecipient (message : String) : Option String :=
  match findAlias (lowerStr message) with
  | some a => some a
  | none => findLiteral message

/-- The asset keyword scan (lines 136-141). -/
def assetOf (lower : String) : String :=
  if substrContains "ksm" lower || substrContains "kusama" lower then "KSM"
  else if substrContains "wnd" lower || substrContains "westend" lower then "WND"
  else "DOT"

/-- `network_map.get(asset, "polkadot")` (lines 143-145). -/
def networkOf (asset : String) : String :=
  ([("DOT", "polkadot"), ("KSM", "kusama"), ("WND", "westend")].lookup asset).getD "polkadot"

/-- `parse_transfer_request`: returns a request only when the amount and the
recipient are both found and truthy (`if amount and recipient`). -/
def parse_transfer_request (message : String) : Option TransferRequest :=
  match findAmount message, findRecipient message with
  | some a, some r =>
    if pyTruthy a && pyTruthy r then
      some { amount := a, recipient := r,
             asset := assetOf (lowerStr message),
             network := networkOf (assetOf (lowerStr message)),
             sender_address := none, message_id := none }
    else none
  | _, _ => none

/-! ### `prepare_transfer` (`agent.py`, lines 157-207) -/

/-- `int(float(request.amount) * (10 ** decimals))` (line 169), with CPython
semantics: `float()` parses the decimal string to the nearest binary64 (a
malformed string raises `ValueError`), `10 ** decimals` is converted to a
binary64, the product is rounded once more, and `int()` truncates toward zero
(raising `OverflowError` on an infinity). -/
def amountPlanck (amount : String) (decimals : ℕ) : PyResult ℤ :=
  match parseDecimal amount with
  | none => .exc (.valueError ("could not convert string to float: " ++ amount))
  | some q =>
    match flq q with
    | none => .exc (.overflowError "cannot convert float infinity to integer")
    | some qf =>
      match flq (pow10 decimals) with
      | none => .exc (.overflowError "int too large to convert to float")
      | some pf =>
        match pyMul qf pf with
        | none => .exc (.overflowError "cannot convert float infinity to integer")
        | some prodf => .ok (pyInt prodf)

/-- `_validate_address` (lines 238-249): with `substrateinterface` installed it
defers to the external `ss58_decode` (any exception is caught and yields
`False`); otherwise the basic check `len(address) > 40 and address.startswith("5")`. -/
def _validate_address (env : ChainEnv) (address : String) (fmt : ℕ) : Bool :=
  if env.substrate_available then env.ss58_valid address fmt
  else address.data.length > 40 && listPref ['5'] address.data

/-- `_get_balance` (lines 209-236): `None` when no interface exists for the
network; the RPC query and the display-unit divisions run inside a `try`
whose `except` swallows every failure into `None`.  CPython `int / int` is
the correctly rounded binary64 quotient. -/
def _get_balance (env : ChainEnv) (address network : String) : Option BalanceInfo :=
  if !env.substrate_available || !(env.interfaces.contains network) then none
  else
    match env.query network address with
    | .exc _ => none
    | .ok none => none
    | .ok (some acct) =>
      match networksGet network with
      | none => none
      | some cfg =>
        match flq ((acct.free : ℚ) / pow10 cfg.decimals),
              flq ((acct.reserved : ℚ) / pow10 cfg.decimals),
              flq ((acct.frozen : ℚ) / pow10 cfg.decimals),
              flq (((acct.free + acct.reserved : ℤ) : ℚ) / pow10 cfg.decimals) with
        | some f, some r, some z, some t =>
          some { free := f, reserved := r, frozen := z, total := t, symbol := cfg.symbol }
        | _, _, _, _ => none

/-- The `transaction_data` dict of the success path (lines 179-190). -/
def mkTxData (req : TransferRequest) (v : ℤ) : TxData :=
  { pallet := "Balances", call := "transfer",
    args := { dest := { Id := req.recipient }, value := v },
    network := req.network,
    amount_display := req.amount ++ " " ++ req.asset,
    recipient_display := req.recipient,
    estimated_fee := "0.01 DOT" }

/-- The successful `TransferResponse` (lines 195-200); this is the only
`TransferResponse(...)` call in the file that passes the required `message`
field. -/
def mkOkResp (req : TransferRequest) (v : ℤ) : TransferResponse :=
  { success := true,
    message := "Transfer prepared: " ++ req.amount ++ " " ++ req.asset ++ " to "
               ++ ⟨req.recipient.data.take 8⟩ ++ "...",
    transaction_data := some (mkTxData req v),
    error := none,
    requires_signature := true }

/-- The `TypeError` text raised by a `TransferResponse(...)` call that omits
the dataclass field `message`, which has no default. -/
def missingMessageMsg : String :=
  "__init__() missing 1 required positional argument: \x27message\x27"

/-- The `try` body of `prepare_transfer` (lines 159-200).  Each failure branch
executes `TransferResponse(success=False, error=...)`: the dataclass
constructor is missing its required `message` argument, so the branch raises
`TypeError` instead of returning the intended failure response. -/
def prepareBody (env : ChainEnv) (req : TransferRequest) : PyResult TransferResponse :=
  match networksGet req.network with
  | none => .exc (.typeError missingMessageMsg)
  | some cfg =>
    match amountPlanck req.amount cfg.decimals with
    | .exc e => .exc e
    | .ok v =>
      if _validate_address env req.recipient cfg.ss58_format then
        let _balance_info :=
          match req.sender_address with
          | some s => if pyTruthy s then _get_balance env s req.network else none
          | none => none
        .ok (mkOkResp req v)
      else .exc (.typeError missingMessageMsg)

/-- `prepare_transfer` (lines 157-207): the `except` handler (lines 202-207)
again calls `TransferResponse(success=False, error=...)` without `message`,
so whenever the body raises anything the handler itself raises a fresh
`TypeError` that escapes `prepare_transfer`. -/
def prepare_transfer (env : ChainEnv) (req : TransferRequest) : PyResult TransferResponse :=
  match prepareBody env req with
  | .ok r => .ok r
  | .exc _ => .exc (.typeError missingMessageMsg)

/-! ### `process_message` (`agent.py`, lines 251-291) -/

/-- A JSON-ish value stored in a response-envelope dict. -/
inductive EnvVal where
  | b (x : Bool)
  | s (x : String)
  | null
  | tx (t : TxData)
  | sugg (l : List String)
deriving DecidableEq, Repr

/-- A Python dict used as a response envelope: ordered key/value pairs, so
that presence and absence of keys is observable. -/
abbrev Envelope := List (String × EnvVal)

/-- Dict key lookup. -/
def Envelope.get : Envelope → String → Option EnvVal
  | [], _ => none
  | (k, v) :: rest, key => if k = key then some v else Envelope.get rest key

/-- `self.agent_id` of the default `AssetTransferAgent()`. -/
def agent_id : String := "asset-transfer-agent"

/-- The clarification envelope (lines 258-266): note it carries neither
`requires_signature` nor `agent_id`. -/
def clarificationEnvelope : Envelope :=
  [("success", .b false),
   ("message", .s "I couldn\x27t understand the transfer request. Please specify amount, recipient, and asset type."),
   ("suggestions", .sugg
     ["Send 5 DOT to Alice",
      "Transfer 10 DOT to 5GrwvaEF5zXb26Fz9rcQpDWS57CtERHpNehXCPcNoHGKutQY",
      "Send 2.5 KSM to Bob"])]

/-- The envelope shaped from a `TransferResponse` (lines 275-282). -/
def okEnvelope (resp : TransferResponse) : Envelope :=
  [("success", .b resp.success),
   ("message", .s resp.message),
   ("transaction_data", match resp.transaction_data with
     | some t => .tx t
     | none => .null),
   ("error", match resp.error with
     | some e => .s e
     | none => .null),
   ("requires_signature", .b resp.requires_signature),
   ("agent_id", .s agent_id)]

/-- The catch-all envelope (lines 286-291): note it carries `agent_id` but no
`requires_signature` and no `transaction_data`. -/
def errorEnvelope (e : String) : Envelope :=
  [("success", .b false),
   ("message", .s "I encountered an error processing your request. Please try again."),
   ("error", .s e),
   ("agent_id", .s agent_id)]

/-- Python `str(e)` on an exception: its message. -/
def pyExcStr : PyExc → String
  | .typeError m => m
  | .valueError m => m
  | .overflowError m => m

/-- The sender-address merge of `process_message` (lines 268-270): a truthy
`context["sender_address"]` is copied onto the parsed request. -/
def mergeSender (req0 : TransferRequest) (context : Option Context) : TransferRequest :=
  match context with
  | some c =>
    match c.sender_address with
    | some sa => if pyTruthy sa then { req0 with sender_address := some sa } else req0
    | none => req0
  | none => req0

/-- `process_message` (lines 251-291): parse, merge the sender address from
the context, prepare, and shape the envelope; any exception from the pipeline
is caught by the outer `except` into the catch-all envelope. -/
def process_message (env : ChainEnv) (message : String) (context : Option Context) : Envelope :=
  match parse_transfer_request message with
  | none => clarificationEnvelope
  | some req0 =>
    match prepare_transfer env (mergeSender req0 context) with
    | .ok resp => okEnvelope resp
    | .exc e => errorEnvelope (pyExcStr e)

/-! ### Helper lemmas -/

theorem pyTruthy_of_ne {s : String} (h : s ≠ "") : pyTruthy s = true := by
  simpa [pyTruthy] using h

theorem pow10_eq (d : ℕ) : pow10 d = (10 : ℚ) ^ d := by
  simp [pow10]

/-- Keeping only non-dot non-comma characters keeps a subset of the
characters kept by removing commas alone. -/
theorem filter_seps_nil {l : List Char}
    (h : l.filter (fun c => c ≠ ',') = []) :
    l.filter (fun c => c ≠ '.' && c ≠ ',') = [] := by
  induction l with
  | nil => rfl
  | cons c t ih =>
    by_cases hc : c = ','
    · subst hc
      simp only [List.filter_cons] at h ⊢
      simpa using ih (by simpa using h)
    · simp only [List.filter_cons] at h
      rw [if_pos (by simpa using hc)] at h
      exact absurd h (by simp)

/-- A found amount token is a non-empty string. -/
theorem findAmount_ne_empty {m a : String} (h : findAmount m = some a) : a ≠ "" := by
  unfold findAmount at h
  rw [Option.map_eq_some'] at h
  obtain ⟨w, hw, rfl⟩ := h
  have hnum : isNumericTok w = true := List.find?_some hw
  unfold isNumericTok at hnum
  have hne : (stripSeps w).isEmpty = false := by
    rcases Bool.and_eq_true .. |>.mp hnum with ⟨h1, _⟩
    simpa using h1
  intro hemp
  have hdata : (removeCommas w).data = [] := by
    rw [hemp]
  unfold removeCommas at hdata
  simp only [String.data] at hdata
  have hstr : (stripSeps w).data = [] := by
    unfold stripSeps
    simpa using filter_seps_nil (l := w.data) (by simpa using hdata)
  have : stripSeps w = "" := String.ext hstr
  rw [this] at hne
  exact absurd hne (by decide)

/-- A found alias address is one of the three table addresses, in particular
non-empty. -/
theorem findAlias_ne_empty {l addr : String} (h : findAlias l = some addr) : addr ≠ "" := by
  unfold findAlias at h
  rw [Option.map_eq_some'] at h
  obtain ⟨p, hp, rfl⟩ := h
  have hmem := List.mem_of_find?_eq_some hp
  unfold aliases at hmem
  simp only [List.mem_cons, List.mem_singleton] at hmem
  rcases hmem with h | h | h | h <;> first
    | (subst h; decide)
    | exact absurd h (by simp)

/-- A value of rational denominator 1 truncates (toward zero) to its
numerator. -/
theorem pyInt_den_one {q : ℚ} (h : q.den = 1) : pyInt q = q.num := by
  have hq : (q.num : ℚ) = q := (Rat.den_eq_one_iff q).mp h
  have hf : ⌊q⌋ = q.num := by
    conv_lhs => rw [← hq]
    exact Int.floor_intCast q.num
  have hf2 : ⌊-q⌋ = -q.num := by
    conv_lhs => rw [← hq]
    rw [← Int.cast_neg]
    exact Int.floor_intCast (-q.num)
  unfold pyInt
  by_cases h0 : 0 ≤ q
  · rw [if_pos h0, hf]
  · rw [if_neg h0, hf2, neg_neg]

/-- Inversion of a successful `prepare_transfer`: the registry lookup, the
amount conversion and the address validation all succeeded and the response
is the success response on the converted value. -/
theorem prepare_ok_inv {env : ChainEnv} {req : TransferRequest} {resp : TransferResponse}
    (h : prepare_transfer env req = .ok resp) :
    ∃ cfg v, networksGet req.network = some cfg ∧
      amountPlanck req.amount cfg.decimals = .ok v ∧
      _validate_address env req.recipient cfg.ss58_format = true ∧
      resp = mkOkResp req v := by
  unfold prepare_transfer at h
  split at h
  case _ r heq =>
    injection h with h
    subst h
    unfold prepareBody at heq
    split at heq
    · exact absurd heq (by simp)
    case _ cfg hn =>
      split at heq
      · exact absurd heq (by simp)
      case _ v ha =>
        split at heq
        case isTrue hv =>
          refine ⟨cfg, v, hn, ha, hv, ?_⟩
          have := heq
          injection this with h2
          exact h2.symm
        case isFalse hv => exact absurd heq (by simp)
  case _ e heq => exact absurd h (by simp)

/-- Forward construction of a successful `prepare_transfer`. -/
theorem prepare_ok_of {env : ChainEnv} {req : TransferRequest} {cfg : NetworkConfig} {v : ℤ}
    (hn : networksGet req.network = some cfg)
    (ha : amountPlanck req.amount cfg.decimals = .ok v)
    (hv : _validate_address env req.recipient cfg.ss58_format = true) :
    prepare_transfer env req = .ok (mkOkResp req v) := by
  unfold prepare_transfer prepareBody
  simp [hn, ha, hv]

/-! ### Envelope lookup lemmas -/

theorem okEnvelope_get_success (resp : TransferResponse) :
    (okEnvelope resp).get "success" = some (.b resp.success) := rfl

theorem okEnvelope_get_requires (resp : TransferResponse) :
    (okEnvelope resp).get "requires_signature" = some (.b resp.requires_signature) := rfl

theorem okEnvelope_get_agent (resp : TransferResponse) :
    (okEnvelope resp).get "agent_id" = some (.s agent_id) := rfl

theorem errorEnvelope_get_requires (e : String) :
    (errorEnvelope e).get "requires_signature" = none := rfl

theorem errorEnvelope_get_agent (e : String) :
    (errorEnvelope e).get "agent_id" = some (.s agent_id) := rfl

theorem errorEnvelope_get_error (e : String) :
    (errorEnvelope e).get "error" = some (.s e) := rfl

theorem process_message_parse_none {env : ChainEnv} {m : String} {ctx : Option Context}
    (h : parse_transfer_request m = none) :
    process_message env m ctx = clarificationEnvelope := by
  unfold process_message
  rw [h]

/-! ### The claims -/

/-- The nearest-integer rounding of the exact rational product, as the spec
words the conversion (`base_units = round(amount_decimal * 10^decimals)`). -/
def round_nearest_spec (q : ℚ) : ℤ := ⌊q + 1 / 2⌋

/-- C1: for the message `Send 5 DOT to Alice` with no sender context,
`parse_transfer_request` yields amount `5`, recipient Alice's table address,
asset `DOT`, network `polkadot`, and `process_message` returns a
`success=true` envelope whose descriptor has `args.value = 5 * 10^10`. -/
theorem c1_send_five_dot_to_alice :
    parse_transfer_request "Send 5 DOT to Alice" =
      some { amount := "5",
             recipient := "5GrwvaEF5zXb26Fz9rcQpDWS57CtERHpNehXCPcNoHGKutQY",
             asset := "DOT", network := "polkadot",
             sender_address := none, message_id := none } ∧
    (process_message envStandalone "Send 5 DOT to Alice" none).get "success"
      = some (.b true) ∧
    (process_message envStandalone "Send 5 DOT to Alice" none).get "transaction_data"
      = some (.tx
          { pallet := "Balances", call := "transfer",
            args := { dest := { Id := "5GrwvaEF5zXb26Fz9rcQpDWS57CtERHpNehXCPcNoHGKutQY" },
                      value := 5 * 10 ^ 10 },
            network := "polkadot", amount_display := "5 DOT",
            recipient_display := "5GrwvaEF5zXb26Fz9rcQpDWS57CtERHpNehXCPcNoHGKutQY",
            estimated_fee := "0.01 DOT" }) := by
  decide

/-- C2 (amended): the base-unit value placed in the descriptor is the
truncation toward zero of the IEEE-754 binary64 product
`float(amount) * float(10^decimals)` (each factor rounded to binary64 and the
product rounded once more), not the nearest-integer rounding of the exact
rational product. -/
theorem c2_value_is_truncated_binary64
    (env : ChainEnv) (req : TransferRequest) (cfg : NetworkConfig)
    (q qf pf prodf : ℚ)
    (hn : networksGet req.network = some cfg)
    (hq : parseDecimal req.amount = some q)
    (hqf : flq q = some qf)
    (hpf : flq (pow10 cfg.decimals) = some pf)
    (hprod : pyMul qf pf = some prodf)
    (hv : _validate_address env req.recipient cfg.ss58_format = true) :
    prepare_transfer env req = .ok (mkOkResp req (pyInt prodf)) ∧
    (mkOkResp req (pyInt prodf)).transaction_data = some (mkTxData req (pyInt prodf)) ∧
    (mkTxData req (pyInt prodf)).args.value = pyInt prodf := by
  have ha : amountPlanck req.amount cfg.decimals = .ok (pyInt prodf) := by
    unfold amountPlanck
    rw [hq]
    dsimp only
    rw [hqf]
    dsimp only
    rw [hpf]
    dsimp only
    rw [hprod]
  exact ⟨prepare_ok_of hn ha hv, rfl, rfl⟩

/-- C2 witness: the amended statement applied at `5` DOT on polkadot. -/
theorem c2_witness :
    prepare_transfer envStandalone
        { amount := "5", recipient := "5GrwvaEF5zXb26Fz9rcQpDWS57CtERHpNehXCPcNoHGKutQY",
          asset := "DOT", network := "polkadot", sender_address := none, message_id := none }
      = .ok (mkOkResp
          { amount := "5", recipient := "5GrwvaEF5zXb26Fz9rcQpDWS57CtERHpNehXCPcNoHGKutQY",
            asset := "DOT", network := "polkadot", sender_address := none, message_id := none }
          (pyInt (50000000000 : ℚ))) :=
  (c2_value_is_truncated_binary64 envStandalone
    { amount := "5", recipient := "5GrwvaEF5zXb26Fz9rcQpDWS57CtERHpNehXCPcNoHGKutQY",
      asset := "DOT", network := "polkadot", sender_address := none, message_id := none }
    { rpc_url := "wss://rpc.polkadot.io", ss58_format := 0, decimals := 10, symbol := "DOT" }
    5 5 (pow10 10) 50000000000
    (by decide) (by decide) (by decide) (by decide) (by decide) (by decide)).1

/-- C2 counterexample: for the decimal amount `0.00000000007` on polkadot the
exact product is `0.7`, whose nearest integer is `1`, but the code places `0`
in the descriptor (the binary64 product is truncated toward zero). -/
theorem c2_counterexample :
    parseDecimal "0.00000000007" = some (7 / 10 ^ 11 : ℚ) ∧
    networksGet "polkadot"
      = some { rpc_url := "wss://rpc.polkadot.io", ss58_format := 0,
               decimals := 10, symbol := "DOT" } ∧
    prepare_transfer envStandalone
        { amount := "0.00000000007",
          recipient := "5GrwvaEF5zXb26Fz9rcQpDWS57CtERHpNehXCPcNoHGKutQY",
          asset := "DOT", network := "polkadot", sender_address := none, message_id := none }
      = .ok (mkOkResp
          { amount := "0.00000000007",
            recipient := "5GrwvaEF5zXb26Fz9rcQpDWS57CtERHpNehXCPcNoHGKutQY",
            asset := "DOT", network := "polkadot", sender_address := none, message_id := none }
          0) ∧
    round_nearest_spec ((7 / 10 ^ 11 : ℚ) * (10 : ℚ) ^ 10) = 1 ∧
    (0 : ℤ) ≠ 1 := by
  decide

/-- C3 (amended): the conversion is deterministic (it is a pure function of
the request and the registry), and it is exactly reversible whenever the
binary64 roundings involved are exact: if the parsed amount, the power of
ten, and their product are all exactly representable in binary64 and the
amount has at most `decimals` fractional digits (`(q * 10^d).den = 1`), then
dividing the descriptor value by `10^decimals` recovers the amount.  Without
the exactness conditions reversibility fails (see the counterexample). -/
theorem c3_reversible_when_exact
    (env : ChainEnv) (req : TransferRequest) (cfg : NetworkConfig) (q : ℚ)
    (hn : networksGet req.network = some cfg)
    (hq : parseDecimal req.amount = some q)
    (hden : (q * (10 : ℚ) ^ cfg.decimals).den = 1)
    (hqf : flq q = some q)
    (hpf : flq (pow10 cfg.decimals) = some (pow10 cfg.decimals))
    (hprodf : flq (q * pow10 cfg.decimals) = some (q * pow10 cfg.decimals))
    (hv : _validate_address env req.recipient cfg.ss58_format = true) :
    ∃ v : ℤ, prepare_transfer env req = .ok (mkOkResp req v) ∧
      (v : ℚ) / (10 : ℚ) ^ cfg.decimals = q := by
  have hpe := pow10_eq cfg.decimals
  have hden' : (q * pow10 cfg.decimals).den = 1 := by rw [hpe]; exact hden
  have ha : amountPlanck req.amount cfg.decimals = .ok (pyInt (q * pow10 cfg.decimals)) := by
    unfold amountPlanck
    rw [hq]
    dsimp only
    rw [hqf]
    dsimp only
    rw [hpf]
    dsimp only
    unfold pyMul
    rw [hprodf]
  have htr : pyInt (q * pow10 cfg.decimals) = (q * pow10 cfg.decimals).num :=
    pyInt_den_one hden'
  have hcast : (((q * pow10 cfg.decimals).num : ℚ)) = q * pow10 cfg.decimals :=
    (Rat.den_eq_one_iff _).mp hden'
  refine ⟨pyInt (q * pow10 cfg.decimals), prepare_ok_of hn ha hv, ?_⟩
  rw [htr, hcast, hpe]
  exact mul_div_cancel_right₀ q (pow_ne_zero _ (by norm_num))

/-- C3 witness: the amended statement applied at `2.5` DOT on polkadot. -/
theorem c3_witness :
    ∃ v : ℤ, prepare_transfer envStandalone
        { amount := "2.5", recipient := "5GrwvaEF5zXb26Fz9rcQpDWS57CtERHpNehXCPcNoHGKutQY",
          asset := "DOT", network := "polkadot", sender_address := none, message_id := none }
      = .ok (mkOkResp
          { amount := "2.5", recipient := "5GrwvaEF5zXb26Fz9rcQpDWS57CtERHpNehXCPcNoHGKutQY",
            asset := "DOT", network := "polkadot", sender_address := none, message_id := none }
          v) ∧ (v : ℚ) / (10 : ℚ) ^ (10 : ℕ) = (5 / 2 : ℚ) :=
  c3_reversible_when_exact envStandalone
    { amount := "2.5", recipient := "5GrwvaEF5zXb26Fz9rcQpDWS57CtERHpNehXCPcNoHGKutQY",
      asset := "DOT", network := "polkadot", sender_address := none, message_id := none }
    { rpc_url := "wss://rpc.polkadot.io", ss58_format := 0, decimals := 10, symbol := "DOT" }
    (5 / 2) (by decide) (by decide) (by decide) (by decide) (by decide) (by decide) (by decide)

/-- C3 counterexample: the integral amount `9007199254740993` (zero fractional
digits, so within the declared precision) is not representable in binary64;
the code computes `90071992547409920000000000` base units, and dividing by
`10^10` yields `9007199254740992`, not the original amount. -/
theorem c3_counterexample :
    parseDecimal "9007199254740993" = some (9007199254740993 : ℚ) ∧
    ((9007199254740993 : ℚ) * (10 : ℚ) ^ (10 : ℕ)).den = 1 ∧
    prepare_transfer envStandalone
        { amount := "9007199254740993",
          recipient := "5GrwvaEF5zXb26Fz9rcQpDWS57CtERHpNehXCPcNoHGKutQY",
          asset := "DOT", network := "polkadot", sender_address := none, message_id := none }
      = .ok (mkOkResp
          { amount := "9007199254740993",
            recipient := "5GrwvaEF5zXb26Fz9rcQpDWS57CtERHpNehXCPcNoHGKutQY",
            asset := "DOT", network := "polkadot", sender_address := none, message_id := none }
          90071992547409920000000000) ∧
    ¬ (((90071992547409920000000000 : ℤ) : ℚ) / (10 : ℚ) ^ (10 : ℕ)
        = (9007199254740993 : ℚ)) := by
  decide

/-- C4: the claim says an unsupported network yields a `success=false`
response naming the network and that `prepare_transfer` never lets an
exception escape.  The code intends this, but the failure branch constructs
`TransferResponse(success=False, error=f"Unsupported network: ...")` without
the required dataclass field `message`, raising `TypeError`; the `except`
handler re-raises the same way, so the `TypeError` escapes `prepare_transfer`
and no failure response is produced. -/
theorem c4_unsupported_network_raises :
    networksGet "ethereum" = none ∧
    prepare_transfer envStandalone
        { amount := "5", recipient := "5GrwvaEF5zXb26Fz9rcQpDWS57CtERHpNehXCPcNoHGKutQY",
          asset := "DOT", network := "ethereum", sender_address := none, message_id := none }
      = .exc (.typeError missingMessageMsg) := by
  decide

/-- C5: the claim says an invalid recipient yields a `success=false` response
with an invalid-address error and no transaction data.  The address check
itself fails as described (`bob` is short and does not start with `5`), but
the failure branch again calls `TransferResponse(success=False, error=...)`
without the required `message` field, so `prepare_transfer` raises `TypeError`
instead of returning the intended failure response. -/
theorem c5_invalid_recipient_raises :
    _validate_address envStandalone "bob" 0 = false ∧
    amountPlanck "5" 10 = .ok 50000000000 ∧
    prepare_transfer envStandalone
        { amount := "5", recipient := "bob", asset := "DOT", network := "polkadot",
          sender_address := none, message_id := none }
      = .exc (.typeError missingMessageMsg) := by
  decide

/-- C6 (amended): the claim says every envelope carries `requires_signature`
and `agent_id`.  In fact only the prepared-transfer envelope carries both;
the clarification envelope omits both (it has only `success`, `message` and
`suggestions`), and the catch-all envelope carries `agent_id` but omits
`requires_signature`.  Every envelope returned by `process_message` has one
of these three shapes. -/
theorem c6_envelope_field_shapes (env : ChainEnv) (m : String) (ctx : Option Context) :
    (((process_message env m ctx).get "requires_signature").isSome ∧
     ((process_message env m ctx).get "agent_id").isSome) ∨
    ((process_message env m ctx).get "requires_signature" = none ∧
     (process_message env m ctx).get "agent_id" = none ∧
     ((process_message env m ctx).get "suggestions").isSome) ∨
    ((process_message env m ctx).get "requires_signature" = none ∧
     ((process_message env m ctx).get "agent_id").isSome ∧
     ((process_message env m ctx).get "error").isSome) := by
  rcases hp : parse_transfer_request m with - | req0
  · right; left
    rw [process_message_parse_none hp]
    decide
  · have he : process_message env m ctx =
        match prepare_transfer env (mergeSender req0 ctx) with
        | .ok resp => okEnvelope resp
        | .exc e => errorEnvelope (pyExcStr e) := by
      unfold process_message
      rw [hp]
    rw [he]
    cases hpr : prepare_transfer env (mergeSender req0 ctx) with
    | ok resp =>
      left
      dsimp only
      rw [okEnvelope_get_requires, okEnvelope_get_agent]
      exact ⟨rfl, rfl⟩
    | exc e =>
      right; right
      dsimp only
      rw [errorEnvelope_get_requires, errorEnvelope_get_agent, errorEnvelope_get_error]
      exact ⟨rfl, rfl, rfl⟩

/-- C6 counterexample: the clarification envelope for an unparseable message
contains neither a `requires_signature` key nor an `agent_id` key. -/
theorem c6_counterexample :
    (process_message envStandalone "hello" none).get "requires_signature" = none ∧
    (process_message envStandalone "hello" none).get "agent_id" = none := by
  decide

/-- C7: for a request that passes the registry lookup, the amount conversion
and the address validation and that carries a sender address, the outcome of
`prepare_transfer` is the success response with the descriptor present, for
every environment — in particular when no interface exists for the network or
the balance query raises.  `_get_balance` swallows its own failures to `None`,
and its result is discarded (no balance field exists in the response), so the
balance lookup cannot affect the outcome. -/
theorem c7_balance_failure_harmless
    (env : ChainEnv) (req : TransferRequest) (cfg : NetworkConfig) (v : ℤ) (s : String)
    (hn : networksGet req.network = some cfg)
    (ha : amountPlanck req.amount cfg.decimals = .ok v)
    (hval : _validate_address env req.recipient cfg.ss58_format = true)
    (hs : req.sender_address = some s) :
    prepare_transfer env req = .ok (mkOkResp req v) ∧
    (mkOkResp req v).success = true ∧
    (mkOkResp req v).transaction_data = some (mkTxData req v) :=
  ⟨prepare_ok_of hn ha hval, rfl, rfl⟩

/-- C7 witness: an environment whose balance query raises, on a valid request
with a sender address; the preparation still succeeds. -/
theorem c7_witness :
    prepare_transfer
        { substrate_available := true, interfaces := ["polkadot"],
          query := fun _ _ => .exc (.valueError "RPC failure"),
          ss58_valid := fun _ _ => true }
        { amount := "5", recipient := "5GrwvaEF5zXb26Fz9rcQpDWS57CtERHpNehXCPcNoHGKutQY",
          asset := "DOT", network := "polkadot",
          sender_address := some "5CiPPseXPECbkjWCa6MnjNokrgYjMqmKndv2rSnekmSK2DjL",
          message_id := none }
      = .ok (mkOkResp
          { amount := "5", recipient := "5GrwvaEF5zXb26Fz9rcQpDWS57CtERHpNehXCPcNoHGKutQY",
            asset := "DOT", network := "polkadot",
            sender_address := some "5CiPPseXPECbkjWCa6MnjNokrgYjMqmKndv2rSnekmSK2DjL",
            message_id := none }
          50000000000) ∧
    (mkOkResp
        { amount := "5", recipient := "5GrwvaEF5zXb26Fz9rcQpDWS57CtERHpNehXCPcNoHGKutQY",
          asset := "DOT", network := "polkadot",
          sender_address := some "5CiPPseXPECbkjWCa6MnjNokrgYjMqmKndv2rSnekmSK2DjL",
          message_id := none }
        50000000000).success = true ∧
    (mkOkResp
        { amount := "5", recipient := "5GrwvaEF5zXb26Fz9rcQpDWS57CtERHpNehXCPcNoHGKutQY",
          asset := "DOT", network := "polkadot",
          sender_address := some "5CiPPseXPECbkjWCa6MnjNokrgYjMqmKndv2rSnekmSK2DjL",
          message_id := none }
        50000000000).transaction_data
      = some (mkTxData
          { amount := "5", recipient := "5GrwvaEF5zXb26Fz9rcQpDWS57CtERHpNehXCPcNoHGKutQY",
            asset := "DOT", network := "polkadot",
            sender_address := some "5CiPPseXPECbkjWCa6MnjNokrgYjMqmKndv2rSnekmSK2DjL",
            message_id := none }
          50000000000) :=
  c7_balance_failure_harmless
    { substrate_available := true, interfaces := ["polkadot"],
      query := fun _ _ => .exc (.valueError "RPC failure"),
      ss58_valid := fun _ _ => true }
    { amount := "5", recipient := "5GrwvaEF5zXb26Fz9rcQpDWS57CtERHpNehXCPcNoHGKutQY",
      asset := "DOT", network := "polkadot",
      sender_address := some "5CiPPseXPECbkjWCa6MnjNokrgYjMqmKndv2rSnekmSK2DjL",
      message_id := none }
    { rpc_url := "wss://rpc.polkadot.io", ss58_format := 0, decimals := 10, symbol := "DOT" }
    50000000000 "5CiPPseXPECbkjWCa6MnjNokrgYjMqmKndv2rSnekmSK2DjL"
    (by decide) (by decide) (by decide) rfl

/-- C8: when no whitespace token passes the numeric test, or neither a
literal address nor an alias is found, `parse_transfer_request` returns the
no-request signal `None` and `process_message` answers with the clarification
envelope: `success=false`, the three suggested example phrasings, and no
`error` key. -/
theorem c8_no_request_is_clarified
    (env : ChainEnv) (m : String) (ctx : Option Context)
    (h : (∀ w ∈ pyWords m, ¬ isNumericTok w) ∨
         (findLiteral m = none ∧ findAlias (lowerStr m) = none)) :
    parse_transfer_request m = none ∧
    (process_message env m ctx).get "success" = some (.b false) ∧
    (process_message env m ctx).get "suggestions" = some (.sugg
      ["Send 5 DOT to Alice",
       "Transfer 10 DOT to 5GrwvaEF5zXb26Fz9rcQpDWS57CtERHpNehXCPcNoHGKutQY",
       "Send 2.5 KSM to Bob"]) ∧
    (process_message env m ctx).get "error" = none := by
  have hpn : parse_transfer_request m = none := by
    rcases h with h | ⟨hl, hal⟩
    · have hA : findAmount m = none := by
        unfold findAmount
        rw [List.find?_eq_none.mpr h]
        rfl
      unfold parse_transfer_request
      rw [hA]
    · have hR : findRecipient m = none := by
        unfold findRecipient
        rw [hal]
        exact hl
      unfold parse_transfer_request
      rw [hR]
      cases findAmount m <;> rfl
  refine ⟨hpn, ?_, ?_, ?_⟩ <;> rw [process_message_parse_none hpn] <;> decide

/-- C8 witness: a message with no numeric token and no recipient. -/
theorem c8_witness :
    parse_transfer_request "hello there" = none ∧
    (process_message envStandalone "hello there" none).get "success" = some (.b false) ∧
    (process_message envStandalone "hello there" none).get "suggestions" = some (.sugg
      ["Send 5 DOT to Alice",
       "Transfer 10 DOT to 5GrwvaEF5zXb26Fz9rcQpDWS57CtERHpNehXCPcNoHGKutQY",
       "Send 2.5 KSM to Bob"]) ∧
    (process_message envStandalone "hello there" none).get "error" = none :=
  c8_no_request_is_clarified envStandalone "hello there" none (Or.inl (by decide))

/-- C9: when the message contains both a literal address token (longer than
40 characters, starting with `5`) and a known alias keyword, the returned
request carries the alias table address: the literal scan runs first and the
alias scan then overwrites its result. -/
theorem c9_alias_overrides_literal (m addr lit a : String)
    (hal : findAlias (lowerStr m) = some addr)
    (hlit : findLiteral m = some lit)
    (ham : findAmount m = some a) :
    ∃ req, parse_transfer_request m = some req ∧ req.recipient = addr := by
  have hrec : findRecipient m = some addr := by
    unfold findRecipient
    rw [hal]
  have h1 : pyTruthy a = true := pyTruthy_of_ne (findAmount_ne_empty ham)
  have h2 : pyTruthy addr = true := pyTruthy_of_ne (findAlias_ne_empty hal)
  unfold parse_transfer_request
  rw [ham, hrec]
  dsimp only
  rw [h1, h2]
  exact ⟨_, rfl, rfl⟩

/-- C9 witness: a message holding the amount `5`, the alias `Bob` and a
literal address; the recipient is Bob's table address, not the literal. -/
theorem c9_witness :
    ∃ req, parse_transfer_request
        "Send 5 to Bob 5GrwvaEF5zXb26Fz9rcQpDWS57CtERHpNehXCPcNoHGKutQY" = some req ∧
      req.recipient = "5FHneW46xGXgs5mUiveU4sbTyGBzmstUspZC92UhjJM694ty" :=
  c9_alias_overrides_literal
    "Send 5 to Bob 5GrwvaEF5zXb26Fz9rcQpDWS57CtERHpNehXCPcNoHGKutQY"
    "5FHneW46xGXgs5mUiveU4sbTyGBzmstUspZC92UhjJM694ty"
    "5GrwvaEF5zXb26Fz9rcQpDWS57CtERHpNehXCPcNoHGKutQY"
    "5" (by decide) (by decide) (by decide)

/-- C10: every successfully prepared transfer, on any network and asset,
carries the constant descriptor fields `pallet="Balances"`, `call="transfer"`
and `estimated_fee="0.01 DOT"` — the fee string is denominated in DOT even
for KSM and WND transfers. -/
theorem c10_constant_descriptor_fields
    (env : ChainEnv) (req : TransferRequest) (resp : TransferResponse) (td : TxData)
    (h : prepare_transfer env req = .ok resp)
    (ht : resp.transaction_data = some td) :
    td.pallet = "Balances" ∧ td.call = "transfer" ∧ td.estimated_fee = "0.01 DOT" := by
  obtain ⟨cfg, v, -, -, -, rfl⟩ := prepare_ok_inv h
  have : some (mkTxData req v) = some td := ht
  injection this with h2
  subst h2
  exact ⟨rfl, rfl, rfl⟩

/-- C10 witness: a KSM transfer on kusama still shows the DOT fee string. -/
theorem c10_witness :
    prepare_transfer envStandalone
        { amount := "1", recipient := "5GrwvaEF5zXb26Fz9rcQpDWS57CtERHpNehXCPcNoHGKutQY",
          asset := "KSM", network := "kusama", sender_address := none, message_id := none }
      = .ok (mkOkResp
          { amount := "1", recipient := "5GrwvaEF5zXb26Fz9rcQpDWS57CtERHpNehXCPcNoHGKutQY",
            asset := "KSM", network := "kusama", sender_address := none, message_id := none }
          1000000000000) ∧
    ((mkTxData
        { amount := "1", recipient := "5GrwvaEF5zXb26Fz9rcQpDWS57CtERHpNehXCPcNoHGKutQY",
          asset := "KSM", network := "kusama", sender_address := none, message_id := none }
        1000000000000).pallet = "Balances" ∧
     (mkTxData
        { amount := "1", recipient := "5GrwvaEF5zXb26Fz9rcQpDWS57CtERHpNehXCPcNoHGKutQY",
          asset := "KSM", network := "kusama", sender_address := none, message_id := none }
        1000000000000).call = "transfer" ∧
     (mkTxData
        { amount := "1", recipient := "5GrwvaEF5zXb26Fz9rcQpDWS57CtERHpNehXCPcNoHGKutQY",
          asset := "KSM", network := "kusama", sender_address := none, message_id := none }
        1000000000000).estimated_fee = "0.01 DOT") :=
  ⟨by decide,
   c10_constant_descriptor_fields envStandalone
     { amount := "1", recipient := "5GrwvaEF5zXb26Fz9rcQpDWS57CtERHpNehXCPcNoHGKutQY",
       asset := "KSM", network := "kusama", sender_address := none, message_id := none }
     (mkOkResp
       { amount := "1", recipient := "5GrwvaEF5zXb26Fz9rcQpDWS57CtERHpNehXCPcNoHGKutQY",
         asset := "KSM", network := "kusama", sender_address := none, message_id := none }
       1000000000000)
     (mkTxData
       { amount := "1", recipient := "5GrwvaEF5zXb26Fz9rcQpDWS57CtERHpNehXCPcNoHGKutQY",
         asset := "KSM", network := "kusama", sender_address := none, message_id := none }
       1000000000000)
     (by decide) rfl⟩

end DotBot

